import Mathlib

/-!
Verification of the link-list boundary adapter
(`src/wrappers/linklist_cs.cpp`).

The file under verification is a C-linkage export layer with three
functions, `linklist_add`, `linklist_size` and `linklist_destroy`, each of
which wraps one engine call (on a `LinkView` object of the external
database engine) in the uniform fault-capturing helper `handle_errors`.
The engine and the helper live outside the visible source, so they are
modelled here from the specification; the three exported wrappers are
translated from the source file itself.
-/

namespace RealmBinding

/-- Row index argument (the `size_t row_ndx` of the source). -/
abbrev RowIndex := Nat

/-- Opaque identity of an engine-managed link-list object.  A raw
`LinkView*` pointer crossing the boundary is either null (`none`) or a
handle (`some h`). -/
abbrev Handle := Nat

/-- Modelled from the spec: `EngineFault`, the single externally visible
error kind, parameterized by the diagnostic information the underlying
engine fault carries (category, message). -/
structure EngineFault where
  category : Nat
  message : String
deriving DecidableEq

/-- Modelled from the spec: the engine-owned state reachable through
handles.  Each live handle maps to the ordered sequence of row indices it
holds; `numRows` bounds the record space so that row-index validity can be
the engine responsibility the spec describes. -/
structure EngineState where
  lists : Handle → Option (List RowIndex)
  numRows : Nat

/-- Modelled from the spec: the outcome of one native engine call.  The
engine either completes (`ok`), raises a native fault (`fault`), or the
call was made through a null pointer, which dereferences null and is
undefined behavior the engine never sees (`undefinedBeh`). -/
inductive EngineOutcome (α : Type) where
  | ok : α → EngineState → EngineOutcome α
  | fault : EngineFault → EngineState → EngineOutcome α
  | undefinedBeh : EngineOutcome α

/-- Modelled from the spec: fault reported by the engine when a call is
made on a handle that is not live (destroyed). -/
def invalidHandleFault : EngineFault := ⟨1, "invalid handle"⟩

/-- Modelled from the spec: fault reported by the engine when the row
index is outside the record space. -/
def invalidIndexFault : EngineFault := ⟨2, "row index out of range"⟩

/-- Modelled from the spec: fault reported when release itself faults,
the double-free case the spec says is guarded by the engine. -/
def doubleFreeFault : EngineFault := ⟨3, "double free"⟩

/-- Modelled from the spec: `LinkView::add` of the external engine.
Appends a reference to the record at the given row index to the end of
the list; an out-of-range index is reported as a fault.  A null pointer
dereference is undefined behavior; a destroyed handle is reported by the
engine as a fault, to the extent the spec says the engine reports. -/
def LinkView.add (st : EngineState) (ptr : Option Handle) (row_ndx : RowIndex) :
    EngineOutcome Unit :=
  match ptr with
  | none => .undefinedBeh
  | some h =>
    match st.lists h with
    | none => .fault invalidHandleFault st
    | some l =>
      if row_ndx < st.numRows then
        .ok () { st with lists := fun h2 => if h2 = h then some (l ++ [row_ndx]) else st.lists h2 }
      else
        .fault invalidIndexFault st

/-- Modelled from the spec: `LinkView::size` of the external engine.
Returns the current element count of the list, with no mutation. -/
def LinkView.size (st : EngineState) (ptr : Option Handle) :
    EngineOutcome Nat :=
  match ptr with
  | none => .undefinedBeh
  | some h =>
    match st.lists h with
    | none => .fault invalidHandleFault st
    | some l => .ok l.length st

/-- Modelled from the spec and the C++ semantics of `delete` used by the
source: `delete` on a null pointer is a well-defined no-op; release of a
handle that is no longer live is the double-free case the spec says the
engine guards with a fault; otherwise the object is released and the
handle stops being live. -/
def LinkView.del (st : EngineState) (ptr : Option Handle) :
    EngineOutcome Unit :=
  match ptr with
  | none => .ok () st
  | some h =>
    match st.lists h with
    | none => .fault doubleFreeFault st
    | some _ => .ok () { st with lists := fun h2 => if h2 = h then none else st.lists h2 }

/-- What the foreign caller observes from one exported call: either the
call returns normally, carrying an in-band return value, the out-of-band
error signal (if any) and the engine state left behind; or a native fault
unwinds across the foreign-function boundary (`unwound`, which the
fault-capturing scope must never produce); or the call ran into undefined
behavior (`undefinedBeh`, the null-dereference case). -/
inductive FFIResult (α : Type) where
  | returned : α → Option EngineFault → EngineState → FFIResult α
  | unwound : EngineFault → FFIResult α
  | undefinedBeh : FFIResult α

/-- In-band value visible to the caller, when the call returned. -/
def FFIResult.retVal {α : Type} : FFIResult α → Option α
  | .returned a _ _ => some a
  | _ => none

/-- Out-of-band error signal visible to the caller, when the call
returned. -/
def FFIResult.errSignal {α : Type} : FFIResult α → Option EngineFault
  | .returned _ e _ => e
  | _ => none

/-- Modelled from the spec: `handle_errors` of `error_handling.hpp`, the
uniform fault-capturing scope.  It invokes the wrapped engine call, on
success returns its result unchanged, and on any fault raised by the
engine stops propagation at the boundary, records the translated error
signal out of band and yields the return type default value in band.
Undefined behavior inside the call is not a raised fault and cannot be
captured. -/
def handle_errors {α : Type} [Inhabited α] (call : EngineOutcome α) : FFIResult α :=
  match call with
  | .ok a st => .returned a none st
  | .fault f st => .returned default (some f) st
  | .undefinedBeh => .undefinedBeh

/-- Translated from the source (`linklist_cs.cpp`, lines 15 to 20):
`linklist_add` runs `linklist_ptr->add(row_ndx)` inside `handle_errors`. -/
def linklist_add (st : EngineState) (linklist_ptr : Option Handle) (row_ndx : RowIndex) :
    FFIResult Unit :=
  handle_errors (LinkView.add st linklist_ptr row_ndx)

/-- Translated from the source (`linklist_cs.cpp`, lines 23 to 28):
`linklist_size` returns `linklist_ptr->size()` run inside
`handle_errors`. -/
def linklist_size (st : EngineState) (linklist_ptr : Option Handle) :
    FFIResult Nat :=
  handle_errors (LinkView.size st linklist_ptr)

/-- Translated from the source (`linklist_cs.cpp`, lines 31 to 36):
`linklist_destroy` runs `delete(linklist_ptr)` inside `handle_errors`. -/
def linklist_destroy (st : EngineState) (linklist_ptr : Option Handle) :
    FFIResult Unit :=
  handle_errors (LinkView.del st linklist_ptr)

/-- The adapter state owned by the export layer itself across calls: the
source declares no globals or statics in the `extern "C"` block, so it is
the unit type. -/
abbrev AdapterState := Unit

/-- One exported call, as an operation value. -/
inductive Op where
  | addOp (ptr : Option Handle) (row : RowIndex)
  | sizeOp (ptr : Option Handle)
  | destroyOp (ptr : Option Handle)

/-- Map over the in-band value of a result. -/
def FFIResult.map {α β : Type} (g : α → β) : FFIResult α → FFIResult β
  | .returned a e st => .returned (g a) e st
  | .unwound f => .unwound f
  | .undefinedBeh => .undefinedBeh

/-- Dispatch one exported call, threading the adapter-owned state through
so that independence from it can be stated. -/
def runOp (a : AdapterState) (st : EngineState) : Op → FFIResult (Option Nat) × AdapterState
  | .addOp p r => ((linklist_add st p r).map (fun _ => none), a)
  | .sizeOp p => ((linklist_size st p).map some, a)
  | .destroyOp p => ((linklist_destroy st p).map (fun _ => none), a)

/-- Concrete state with a single fresh, empty list behind every handle and
eight rows in the record space. -/
def freshState : EngineState := { lists := fun _ => some [], numRows := 8 }

/-- Concrete state in which no handle is live. -/
def deadState : EngineState := { lists := fun _ => none, numRows := 0 }

/-- The fault-capturing scope never lets a native fault unwind across the
boundary. -/
theorem handle_errors_never_unwinds {α : Type} [Inhabited α]
    (o : EngineOutcome α) (f : EngineFault) :
    handle_errors o ≠ FFIResult.unwound f := by
  cases o <;> simp [handle_errors]

/-- The fault-capturing scope converts a raised fault into a returned
error signal with the default in-band value. -/
theorem handle_errors_fault {α : Type} [Inhabited α]
    (o : EngineOutcome α) (f : EngineFault) (st : EngineState)
    (h : o = .fault f st) :
    handle_errors o = .returned default (some f) st := by
  subst h; rfl

/-- Claim C1: every exported operation (`linklist_add`, `linklist_size`,
`linklist_destroy`) executes its wrapped engine call inside the uniform
fault-capturing scope: for every input, any fault raised by the engine
call is stopped at the boundary and converted into a translated error
signal, and no native fault ever propagates across the foreign-function
boundary to the caller. -/
theorem c1_uniform_fault_capture (st : EngineState) (ptr : Option Handle) (row : RowIndex) :
    ((∀ f, linklist_add st ptr row ≠ FFIResult.unwound f) ∧
      ∀ f st2, LinkView.add st ptr row = .fault f st2 →
        linklist_add st ptr row = .returned () (some f) st2) ∧
    ((∀ f, linklist_size st ptr ≠ FFIResult.unwound f) ∧
      ∀ f st2, LinkView.size st ptr = .fault f st2 →
        linklist_size st ptr = .returned 0 (some f) st2) ∧
    ((∀ f, linklist_destroy st ptr ≠ FFIResult.unwound f) ∧
      ∀ f st2, LinkView.del st ptr = .fault f st2 →
        linklist_destroy st ptr = .returned () (some f) st2) :=
  ⟨⟨fun f => handle_errors_never_unwinds _ f,
    fun f st2 h => handle_errors_fault _ f st2 h⟩,
   ⟨fun f => handle_errors_never_unwinds _ f,
    fun f st2 h => handle_errors_fault _ f st2 h⟩,
   ⟨fun f => handle_errors_never_unwinds _ f,
    fun f st2 h => handle_errors_fault _ f st2 h⟩⟩

/-- Witness for C1 at a concrete input: on a destroyed handle the engine
call inside `linklist_size` faults, and the exported operation returns the
translated signal. -/
theorem c1_witness :
    linklist_size deadState (some 0) = .returned 0 (some invalidHandleFault) deadState :=
  (c1_uniform_fault_capture deadState (some 0) 5).2.1.2 invalidHandleFault deadState rfl

/-- Claim C2: for every valid (live, non-null) handle and every valid row
index, `linklist_add` increases the value subsequently returned by
`linklist_size` by exactly 1, and the reference appended at the end of the
list points at the record identified by the row index. -/
theorem c2_append_increases_size (st : EngineState) (h : Handle) (l : List RowIndex)
    (hl : st.lists h = some l) (row : RowIndex) (hrow : row < st.numRows) :
    ∃ st2, linklist_add st (some h) row = .returned () none st2 ∧
      linklist_size st2 (some h) = .returned (l.length + 1) none st2 ∧
      st2.lists h = some (l ++ [row]) := by
  refine ⟨{ st with lists := fun h2 => if h2 = h then some (l ++ [row]) else st.lists h2 },
    ?_, ?_, ?_⟩
  · simp [linklist_add, handle_errors, LinkView.add, hl, hrow]
  · simp [linklist_size, handle_errors, LinkView.size]
  · simp

/-- Witness for C2 at a concrete input: appending row 3 to the fresh empty
list behind handle 0 makes its size 1 and leaves the reference to row 3 at
the end. -/
theorem c2_witness :
    ∃ st2, linklist_add freshState (some 0) 3 = .returned () none st2 ∧
      linklist_size st2 (some 0) = .returned 1 none st2 ∧
      st2.lists 0 = some [3] :=
  c2_append_increases_size freshState 0 [] rfl 3 (by decide)

/-- Counterexample for C3: the claim says every operation on a null handle
returns an EngineFault signal, but `linklist_destroy` on a null handle
returns successfully with no error signal, because `delete` on a null
pointer is a well-defined no-op. -/
theorem c3_counterexample :
    linklist_destroy deadState none = .returned () none deadState ∧
    (linklist_destroy deadState none).errSignal = none :=
  ⟨rfl, rfl⟩

/-- Claim C3 as amended: for every already-destroyed handle, each of the
three operations returns an EngineFault signal; for a null handle,
`linklist_destroy` completes successfully as a no-op, while
`linklist_add` and `linklist_size` dereference null, which is undefined
behavior rather than a reported fault. -/
theorem c3_amended_invalid_handles (st : EngineState) (h : Handle) (row : RowIndex)
    (hdead : st.lists h = none) :
    linklist_add st (some h) row = .returned () (some invalidHandleFault) st ∧
    linklist_size st (some h) = .returned 0 (some invalidHandleFault) st ∧
    linklist_destroy st (some h) = .returned () (some doubleFreeFault) st ∧
    linklist_destroy st none = .returned () none st ∧
    linklist_add st none row = .undefinedBeh ∧
    linklist_size st none = .undefinedBeh := by
  refine ⟨?_, ?_, ?_, rfl, rfl, rfl⟩
  · simp [linklist_add, handle_errors, LinkView.add, hdead]
  · simp [linklist_size, handle_errors, LinkView.size, hdead]
  · simp [linklist_destroy, handle_errors, LinkView.del, hdead]

/-- Witness for the amended C3 at a concrete input: in the state with no
live handle, all three operations behave as the amended claim states. -/
theorem c3_witness :
    linklist_add deadState (some 0) 5 = .returned () (some invalidHandleFault) deadState ∧
    linklist_size deadState (some 0) = .returned 0 (some invalidHandleFault) deadState ∧
    linklist_destroy deadState (some 0) = .returned () (some doubleFreeFault) deadState ∧
    linklist_destroy deadState none = .returned () none deadState ∧
    linklist_add deadState none 5 = .undefinedBeh ∧
    linklist_size deadState none = .undefinedBeh :=
  c3_amended_invalid_handles deadState 0 5 rfl

/-- Claim C4: on success (no fault raised by the engine), each exported
operation returns the wrapped engine call result unchanged; in particular,
for every live handle, `linklist_size` returns exactly the engine current
element count, with no transformation by the adapter. -/
theorem c4_success_passthrough (st : EngineState) (ptr : Option Handle) :
    (∀ row st2, LinkView.add st ptr row = .ok () st2 →
      linklist_add st ptr row = .returned () none st2) ∧
    (∀ v st2, LinkView.size st ptr = .ok v st2 →
      linklist_size st ptr = .returned v none st2) ∧
    (∀ st2, LinkView.del st ptr = .ok () st2 →
      linklist_destroy st ptr = .returned () none st2) ∧
    (∀ h l, ptr = some h → st.lists h = some l →
      linklist_size st ptr = .returned l.length none st) := by
  refine ⟨?_, ?_, ?_, ?_⟩
  · intro row st2 hok
    simp [linklist_add, handle_errors, hok]
  · intro v st2 hok
    simp [linklist_size, handle_errors, hok]
  · intro st2 hok
    simp [linklist_destroy, handle_errors, hok]
  · intro h l hp hl
    subst hp
    simp [linklist_size, handle_errors, LinkView.size, hl]

/-- Witness for C4 at a concrete input: on the fresh state, the size of
the empty list behind handle 0 is passed through unchanged as 0. -/
theorem c4_witness :
    linklist_size freshState (some 0) = .returned (List.length ([] : List RowIndex)) none freshState :=
  (c4_success_passthrough freshState (some 0)).2.2.2 0 [] rfl rfl

/-- Claim C5: for every freshly obtained, empty link list, `linklist_size`
returns 0. -/
theorem c5_empty_size_zero (st : EngineState) (h : Handle)
    (hfresh : st.lists h = some ([] : List RowIndex)) :
    linklist_size st (some h) = .returned 0 none st := by
  simp [linklist_size, handle_errors, LinkView.size, hfresh]

/-- Witness for C5 at a concrete input: the fresh empty list behind handle
0 has size 0. -/
theorem c5_witness :
    linklist_size freshState (some 0) = .returned 0 none freshState :=
  c5_empty_size_zero freshState 0 rfl

/-- Claim C6: `linklist_size` performs no mutation: for every live handle
it returns the element count while leaving the engine state exactly
unchanged, and every returning call to it leaves the engine state it
reports equal to the input state. -/
theorem c6_size_no_mutation (st : EngineState) :
    (∀ h l, st.lists h = some l →
      linklist_size st (some h) = .returned l.length none st) ∧
    (∀ ptr v e st2, linklist_size st ptr = .returned v e st2 → st2 = st) := by
  constructor
  · intro h l hl
    simp [linklist_size, handle_errors, LinkView.size, hl]
  · intro ptr v e st2 hret
    cases ptr with
    | none => simp [linklist_size, handle_errors, LinkView.size] at hret
    | some h =>
      cases hsl : st.lists h with
      | none =>
        simp [linklist_size, handle_errors, LinkView.size, hsl] at hret
        exact hret.2.2.symm
      | some l =>
        simp [linklist_size, handle_errors, LinkView.size, hsl] at hret
        exact hret.2.2.symm

/-- Witness for C6 at a concrete input: sizing the fresh empty list behind
handle 0 returns 0 with the state unchanged. -/
theorem c6_witness :
    linklist_size freshState (some 0) = .returned (List.length ([] : List RowIndex)) none freshState :=
  (c6_size_no_mutation freshState).1 0 [] rfl

/-- Claim C7: end-to-end sequence: starting from a freshly created empty
list, appending rows 5 and 7 and then sizing returns 2; after destroy the
handle is no longer live and a subsequent operation on it is rejected by
the engine with a fault signal rather than supported. -/
theorem c7_end_to_end :
    ∃ st1 st2 st3,
      linklist_add freshState (some 0) 5 = .returned () none st1 ∧
      linklist_add st1 (some 0) 7 = .returned () none st2 ∧
      linklist_size st2 (some 0) = .returned 2 none st2 ∧
      linklist_destroy st2 (some 0) = .returned () none st3 ∧
      st3.lists 0 = none ∧
      (linklist_size st3 (some 0)).errSignal = some invalidHandleFault ∧
      (linklist_size st3 (some 0)).retVal ≠ some 2 := by
  refine ⟨_, _, _, rfl, rfl, rfl, rfl, rfl, rfl, by decide⟩

/-- Claim C8: each exported operation is stateless in the adapter: the
adapter holds no state of its own across calls, so any operation invoked
with the same arguments and the same engine state produces the same
result and the same effect regardless of the adapter-side state. -/
theorem c8_adapter_stateless (a1 a2 : AdapterState) (st : EngineState) (op : Op) :
    runOp a1 st op = runOp a2 st op := rfl

/-- Claim C9 (implicit): when the wrapped engine call faults, the fault is
not observable through the return value itself: `linklist_add` and
`linklist_destroy` return unit regardless of outcome, and `linklist_size`
returns the default value the fault-capturing scope yields on error,
which the caller cannot distinguish from a legitimate element count; the
fault indication is carried only out of band. -/
theorem c9_fault_out_of_band (st : EngineState) (h : Handle)
    (hdead : st.lists h = none) :
    (∀ ptr row x e st2, linklist_add st ptr row = .returned x e st2 → x = ()) ∧
    (∀ ptr x e st2, linklist_destroy st ptr = .returned x e st2 → x = ()) ∧
    linklist_size st (some h) = .returned 0 (some invalidHandleFault) st ∧
    (∃ st2 h2, st2.lists h2 = some ([] : List RowIndex) ∧
      (linklist_size st2 (some h2)).retVal = (linklist_size st (some h)).retVal ∧
      (linklist_size st2 (some h2)).errSignal = none ∧
      (linklist_size st (some h)).errSignal = some invalidHandleFault) := by
  refine ⟨fun _ _ x _ _ _ => rfl, fun _ x _ _ _ => rfl, ?_, freshState, 0, rfl, ?_, rfl, ?_⟩
  · simp [linklist_size, handle_errors, LinkView.size, hdead]
  · simp [linklist_size, handle_errors, LinkView.size, hdead, freshState, FFIResult.retVal]
  · simp [linklist_size, handle_errors, LinkView.size, hdead, FFIResult.errSignal]

/-- Witness for C9 at a concrete input: in the state with no live handle,
sizing handle 0 yields the in-band value 0 with the fault signal carried
out of band only. -/
theorem c9_witness :
    linklist_size deadState (some 0) = .returned 0 (some invalidHandleFault) deadState :=
  (c9_fault_out_of_band deadState 0 rfl).2.2.1

/-- Claim C10 (implicit): calling `linklist_destroy` with a null handle is
a well-defined no-op that completes successfully without raising any
fault, because `delete` applied to a null pointer does nothing. -/
theorem c10_destroy_null_is_noop (st : EngineState) :
    linklist_destroy st none = .returned () none st := rfl

end RealmBinding
